import Mathlib

/-!
Verification of the MCP (Model Context Protocol) tool-dispatch layer of the
FinanceAI repository: a shallow embedding in Lean 4 of the protocol client
(`backend/mcp/protocol/client.py`), the protocol wire types
(`backend/mcp/protocol/types.py`), the protocol server
(`backend/mcp/protocol/server.py`), the registry-style server
(`backend/mcp/server.py`) and the multi-server client (`backend/mcp/client.py`).

Python dictionaries are embedded as association lists over `String` keys
(insertion order preserved, keys unique in every state the code builds);
opaque JSON payloads (`Any` in the source) are embedded as a type parameter
`V`.  Fallible paths return explicit outcome values.
-/

set_option autoImplicit false

namespace MCP

variable {V : Type}

/-- `d[k] = v` on a Python dict embedded as an association list: replaces the
value at the first occurrence of `k` (keeping its position, as CPython dicts
do), or appends `(k, v)` when `k` is absent. -/
def dict_set (m : List (String × V)) (k : String) (v : V) : List (String × V) :=
  match m with
  | [] => [(k, v)]
  | (k', v') :: rest => if k' = k then (k, v) :: rest else (k', v') :: dict_set rest k v

/-- `d.get(k)` on a Python dict embedded as an association list. -/
def dict_get (m : List (String × V)) (k : String) : Option V :=
  match m with
  | [] => none
  | (k', v') :: rest => if k' = k then some v' else dict_get rest k

/-- `d.pop(k, None)` (the removal part): drops the first occurrence of `k`. -/
def dict_pop (m : List (String × V)) (k : String) : List (String × V) :=
  match m with
  | [] => []
  | (k', v') :: rest => if k' = k then rest else (k', v') :: dict_pop rest k

/-- Key list of an embedded dict. -/
def dict_keys (m : List (String × V)) : List String :=
  m.map Prod.fst

/-! ### `backend/mcp/server.py` — registry-style MCP server

`MCPServer.handle_invoke` (lines 140-187): resolves the tool in `self.tools`,
remaps the `"input"` parameter to `"symbol"` when the tool's declared
parameter schema has a `"symbol"` key, runs the handler, and converts the
outcome (normal return / `TypeError` / any other exception) into an
`invoke_response` dict.  The Python response dicts carry different key sets on
different paths, so the embedding records each field as an `Option` whose
`none` means "key absent from the response dict". -/

namespace RegistryServer

/-- Outcome of calling a registered handler with keyword arguments: a normal
return value, a raised `TypeError` (argument-shape mismatch), or any other
raised exception (carrying `str(e)`). -/
inductive HandlerOutcome (V : Type) where
  | ok (v : V)
  | typeError (msg : String)
  | exc (msg : String)

/-- A registered tool as stored by `MCPServer.register_tool` (lines 98-110):
the fields `handle_invoke` reads, with `parameters` the declared parameter
schema dict and `handler` the registered callable (possibly `None`). -/
structure ToolEntry (V : Type) where
  name : String
  description : String
  parameters : List (String × V)
  handler : Option (List (String × V) → HandlerOutcome V)
  category : String

/-- An `invoke_response` dict as built by `handle_invoke`; a `none` field
means the corresponding key is absent from the Python dict. -/
structure InvokeResponse (V : Type) where
  type : String
  tool_id : Option String
  result : Option V
  success : Option Bool
  error : Option String
deriving DecidableEq

/-- Lines 160-162: `if "input" in parameters and "symbol" in tool["parameters"]:
parameters["symbol"] = parameters.pop("input")`. -/
def remap_input_to_symbol (toolParams : List (String × V))
    (parameters : List (String × V)) : List (String × V) :=
  match dict_get parameters "input" with
  | some v =>
    if (dict_get toolParams "symbol").isSome then
      dict_set (dict_pop parameters "input") "symbol" v
    else parameters
  | none => parameters

/-- Lines 164-187: conversion of the handler outcome into the response dict
(`try`/`except TypeError`/`except Exception`). -/
def invoke_response_of (tool_id : String) (o : HandlerOutcome V) : InvokeResponse V :=
  match o with
  | .ok v => ⟨"invoke_response", some tool_id, some v, some true, none⟩
  | .typeError m =>
    ⟨"invoke_response", some tool_id, none, some false, some ("Parameter error: " ++ m)⟩
  | .exc m => ⟨"invoke_response", some tool_id, none, some false, some m⟩

/-- `MCPServer.handle_invoke` (lines 140-187). -/
def handle_invoke (tools : List (String × ToolEntry V)) (tool_id : String)
    (parameters : List (String × V)) : InvokeResponse V :=
  match dict_get tools tool_id with
  | none => ⟨"invoke_response", none, none, none, some ("Tool not found: " ++ tool_id)⟩
  | some tool =>
    match tool.handler with
    | none => ⟨"invoke_response", none, none, none, some ("No handler for tool: " ++ tool_id)⟩
    | some h =>
      invoke_response_of tool_id (h (remap_input_to_symbol tool.parameters parameters))

end RegistryServer

/-! ### `backend/mcp/protocol/types.py` — wire types

`Tool.to_langchain_tool` (lines 35-52) flattens a `Tool`'s parameter list into
a JSON-schema-style dict: a `properties` dict comprehension keyed by parameter
name and a `required` list of the names of required parameters. -/

namespace ProtocolTypes

/-- `ToolParameterType` (lines 8-14). -/
inductive ToolParameterType where
  | string
  | number
  | boolean
  | object
  | array
deriving DecidableEq

/-- `ToolParameter` (lines 17-24). -/
structure ToolParameter (V : Type) where
  name : String
  type : ToolParameterType
  description : String
  required : Bool
  default : Option V
  enum : Option (List V)
deriving DecidableEq

/-- `Tool` (lines 27-33). -/
structure Tool (V : Type) where
  id : String
  name : String
  description : String
  parameters : List (ToolParameter V)
  category : Option String
deriving DecidableEq

/-- One entry of the `properties` dict built by `to_langchain_tool`
(lines 43-47): `{"type": ..., "description": ..., "default": ...}`. -/
structure PropertyEntry (V : Type) where
  type : ToolParameterType
  description : String
  default : Option V
deriving DecidableEq

/-- The value of the `"parameters"` key of the dict returned by
`to_langchain_tool` (lines 40-51); the `name`/`description` top-level keys are
carried alongside. -/
structure LangchainSchema (V : Type) where
  name : String
  description : String
  properties : List (String × PropertyEntry V)
  required : List String
deriving DecidableEq

/-- `Tool.to_langchain_tool` (lines 35-52).  The Python dict comprehension
over `self.parameters` is a left fold of `dict_set` (later duplicate names
overwrite earlier values in place, as CPython dicts do). -/
def to_langchain_tool (t : Tool V) : LangchainSchema V :=
  { name := t.name
    description := t.description
    properties :=
      t.parameters.foldl (fun d p => dict_set d p.name ⟨p.type, p.description, p.default⟩) []
    required := (t.parameters.filter (fun p => p.required)).map (fun p => p.name) }

/-- Reading a parameter's type tag back out of the flattened schema: the
`"type"` field of the property entry stored under `n`. -/
def schema_type_of (s : LangchainSchema V) (n : String) : Option ToolParameterType :=
  (dict_get s.properties n).map (fun e => e.type)

end ProtocolTypes

/-! ### `backend/mcp/protocol/client.py` — protocol client

`MCPClient._send_and_wait` (lines 90-109) registers an `asyncio.Future` under
the message id, sends, awaits the future with `asyncio.wait_for(..., 30.0)`,
and in a `finally` pops the slot.  `MCPClient._handle_messages`
(lines 111-130) resolves the future for an inbound response id if a slot is
registered; `Future.set_result` on an already-resolved future raises
`InvalidStateError`, which the `except` at line 128 catches, setting
`self.connected = False` and ending the handler loop.

The embedding models a future slot as `pending` or `done`, the client state as
the `_response_handlers` dict plus the `connected` flag, and each wire event as
a state transition.  Time is modelled by the arrival offset (in seconds) of
the matching response, `none` meaning it never arrives. -/

namespace ProtocolClient

/-- The observable state of an `asyncio.Future` slot in `_response_handlers`. -/
inductive FutureState where
  | pending
  | done
deriving DecidableEq

/-- Client state: the `_response_handlers` dict and the `connected` flag. -/
structure ClientState where
  response_handlers : List (String × FutureState)
  connected : Bool
deriving DecidableEq

/-- `dict_set` specialised to future slots. -/
def set_slot (s : ClientState) (rid : String) (f : FutureState) : ClientState :=
  { s with response_handlers := dict_set s.response_handlers rid f }

/-- One iteration of `_handle_messages` (lines 114-130) on an inbound
`tool_response` (or `tool_list_response`) whose id is `rid`: if a slot is
registered and pending, `set_result` resolves it; if a slot is registered but
already resolved, `set_result` raises `InvalidStateError`, the `except` at
line 128 fires, `connected` becomes `False` and the loop ends; if no slot is
registered the message is dropped. -/
def handle_messages_step (rid : String) (s : ClientState) : ClientState :=
  match dict_get s.response_handlers rid with
  | some .pending => set_slot s rid .done
  | some .done => { s with connected := false }
  | none => s

/-- `timeout=30.0` at line 104. -/
def wait_for_timeout : Nat := 30

/-- Result of `_send_and_wait`: the raised exception message if any, the time
spent waiting, and the client state after the `finally` pop. -/
structure SendAndWaitOutcome where
  raised : Option String
  waited : Nat
  final : ClientState
deriving DecidableEq

/-- `MCPClient._send_and_wait` (lines 90-109) for a message with id `mid`,
where `arrival` is the time at which the matching response is processed by
`_handle_messages` (`none` if the server never responds).  A response
processed strictly before the 30 s deadline resolves the future and the
`finally` pops the slot; otherwise `wait_for` raises `TimeoutError` at 30 s,
re-raised as `Exception("Timeout waiting for response to <id>")`, and the
`finally` pops the slot. -/
def send_and_wait (s : ClientState) (mid : String) (arrival : Option Nat) :
    SendAndWaitOutcome :=
  if s.connected = false then
    ⟨some "Not connected to MCP server", 0, s⟩
  else
    let s₁ : ClientState := set_slot s mid .pending
    match arrival with
    | some t =>
      if t < wait_for_timeout then
        let s₂ := handle_messages_step mid s₁
        ⟨none, t, { s₂ with response_handlers := dict_pop s₂.response_handlers mid }⟩
      else
        ⟨some ("Timeout waiting for response to " ++ mid), wait_for_timeout,
          { s₁ with response_handlers := dict_pop s₁.response_handlers mid }⟩
    | none =>
      ⟨some ("Timeout waiting for response to " ++ mid), wait_for_timeout,
        { s₁ with response_handlers := dict_pop s₁.response_handlers mid }⟩

end ProtocolClient

/-! ### `backend/mcp/protocol/server.py` — protocol server

`MCPServer.process_message` (lines 58-87) answers a `tool_list_request` with a
hand-built dict `{"id": ..., "type": "tool_list_response", "tools": [...]}`.
The embedding records the response dict as an association list so its key set
is inspectable. -/

namespace ProtocolServer

/-- A field value of a wire message built by `process_message` or by the
registry server's subscribe handler. -/
inductive WireVal (V : Type) where
  | str (s : String)
  | bool (b : Bool)
  | null
  | toolList (ts : List (ProtocolTypes.Tool V))

/-- The `tool_list_response` dict built at lines 64-68 of
`backend/mcp/protocol/server.py`. -/
def tool_list_response (mid : String) (tools : List (String × ProtocolTypes.Tool V)) :
    List (String × WireVal V) :=
  [("id", .str mid),
   ("type", .str "tool_list_response"),
   ("tools", .toolList (tools.map Prod.snd))]

/-- The `subscribe_response` dict built by `MCPServer.handle_subscribe`
(`backend/mcp/server.py` lines 189-196), after `handle_message` (line 66)
adds the `"id"` key. -/
def subscribe_response (event_type : Option String) (mid : Option String) :
    List (String × WireVal V) :=
  [("type", .str "subscribe_response"),
   ("event_type", match event_type with | some e => .str e | none => .null),
   ("subscribed", .bool true),
   ("id", match mid with | some i => .str i | none => .null)]

end ProtocolServer

/-! ### `backend/mcp/client.py` — multi-server registry client

`MCPClient.connect` (lines 34-54) iterates over the configured URLs, skips
non-`ws`/`wss` schemes before any network call, attempts the rest, and returns
whether at least one attempt succeeded.  `MCPClient._reconnect` (lines 94-106)
makes up to 5 attempts, sleeping `2 ** attempt` seconds after a failed attempt.
`MCPClient.invoke_tool` (lines 108-162) is wrapped in
`tenacity.retry(stop=stop_after_attempt(3), wait=wait_exponential(multiplier=1,
min=1, max=10))` with no `retry=` predicate, so every raised exception —
including the `ValueError` raised at line 148 for a `status != "success"`
response — triggers a retry until the attempt budget is spent. -/

namespace RegistryClient

/-- Scheme extraction as used by `urlparse(server_url).scheme` at line 45:
the (lowercased) text before the first `:`, or `""` when no `:` occurs. -/
def url_scheme (url : String) : String :=
  match url.splitOn ":" with
  | [] => ""
  | [_] => ""
  | s :: _ => s.toLower

/-- Whether line 46 accepts the URL: `parsed.scheme in ("ws", "wss")`. -/
def valid_scheme (url : String) : Bool :=
  url_scheme url = "ws" || url_scheme url = "wss"

/-- `MCPClient.connect` (lines 34-54), with `connect_ok url` the outcome of
`_connect_to_server(url)` (its network effect).  Returns the `connected` flag
together with the list of URLs for which a network call was attempted, in
order; a per-URL failure is logged and the loop continues. -/
def connect (urls : List String) (connect_ok : String → Bool) : Bool × List String :=
  urls.foldl
    (fun acc url =>
      if valid_scheme url then (acc.1 || connect_ok url, acc.2 ++ [url]) else acc)
    (false, [])

/-- `max_attempts = 5` at line 96 of `_reconnect`. -/
def reconnect_max_attempts : Nat := 5

/-- `wait = 2 ** attempt` at line 103: the sleep after the failed attempt with
0-based index `attempt`. -/
def reconnect_sleep (attempt : Nat) : Nat := 2 ^ attempt

/-- The sleeps performed by `_reconnect` when the first `failCount` attempts
fail (and beyond `reconnect_max_attempts` no further attempts happen): the
loop sleeps after every failed attempt, including the last one. -/
def reconnect_sleeps (failCount : Nat) : List Nat :=
  (List.range (min failCount reconnect_max_attempts)).map reconnect_sleep

/-- Outcome of one execution of the `invoke_tool` body (lines 115-162): the
response for the request arrives with `status == "success"`, or with a failure
status (line 148 raises `ValueError("Tool invocation failed: ...")`), or
`wait_for` times out, or the connection closes mid-wait. -/
inductive AttemptOutcome (V : Type) where
  | success (v : V)
  | appFailure (err : String)
  | timeoutErr
  | connectionClosed

/-- The exception message the attempt raises, `none` for a success return. -/
def raised_exception (o : AttemptOutcome V) : Option String :=
  match o with
  | .success _ => none
  | .appFailure e => some ("Tool invocation failed: " ++ e)
  | .timeoutErr => some "TimeoutError"
  | .connectionClosed => some "ConnectionClosed"

/-- Tenacity's default retry predicate (no `retry=` argument at lines
108-114): retry whenever the attempt raised any exception. -/
def tenacity_should_retry (o : AttemptOutcome V) : Bool :=
  (raised_exception o).isSome

/-- `stop_after_attempt(3)` at line 109. -/
def stop_after_attempt : Nat := 3

/-- `wait_exponential(multiplier=1, min=1, max=10)` at line 110: tenacity
computes `multiplier * exp_base ** attempt_number` for the just-failed attempt
number (1-based) and clamps the result into `[min, max]`. -/
def wait_exponential_value (attempt_number : Nat) : Nat :=
  max 1 (min 10 (2 ^ attempt_number))

/-- A finished retried call: the final result (`Except.error` models the
`RetryError` tenacity raises once the stop condition holds, carrying the last
attempt's exception message), the number of attempts made, and the sleeps
performed between attempts. -/
structure RetryRun (V : Type) where
  result : Except String V
  attempts_used : Nat
  waits : List Nat

/-- The tenacity retry loop around `invoke_tool`: attempt `n` (1-based) has
outcome `outcomes n`; a raised exception is retried with the exponential sleep
until `stop_after_attempt` attempts are spent.  `fuel` is the remaining
attempt budget. -/
def retry_loop (outcomes : Nat → AttemptOutcome V) : Nat → Nat → List Nat → RetryRun V
  | _, 0, waits => ⟨.error "RetryError", 0, waits⟩
  | n, fuel + 1, waits =>
    match outcomes n with
    | .success v => ⟨.ok v, n, waits⟩
    | o =>
      if fuel = 0 then
        ⟨.error ((raised_exception o).getD "RetryError"), n, waits⟩
      else
        retry_loop outcomes (n + 1) fuel (waits ++ [wait_exponential_value n])

/-- `MCPClient.invoke_tool` with its `@retry` decorator (lines 108-162), as a
function of the per-attempt outcomes. -/
def invoke_tool_retry (outcomes : Nat → AttemptOutcome V) : RetryRun V :=
  retry_loop outcomes 1 stop_after_attempt []

end RegistryClient

/-! ## Theorems -/

@[simp] theorem dict_keys_nil : dict_keys ([] : List (String × V)) = [] := rfl

@[simp] theorem dict_keys_cons (k' : String) (v' : V) (rest : List (String × V)) :
    dict_keys ((k', v') :: rest) = k' :: dict_keys rest := rfl

@[simp] theorem dict_get_nil (k : String) : dict_get ([] : List (String × V)) k = none := rfl

@[simp] theorem dict_get_cons (k k' : String) (v' : V) (rest : List (String × V)) :
    dict_get ((k', v') :: rest) k = if k' = k then some v' else dict_get rest k := rfl

theorem dict_get_eq_none_of_not_mem (m : List (String × V)) (k : String)
    (h : k ∉ dict_keys m) : dict_get m k = none := by
  induction m with
  | nil => rfl
  | cons p rest ih =>
    obtain ⟨k', v'⟩ := p
    simp only [dict_keys_cons, List.mem_cons, not_or] at h
    simp [Ne.symm h.1, ih h.2]

@[simp] theorem dict_set_lookup_self (m : List (String × V)) (k : String) (v : V) :
    dict_get (dict_set m k v) k = some v := by
  induction m with
  | nil => simp [dict_set]
  | cons p rest ih =>
    obtain ⟨k', v'⟩ := p
    by_cases h : k' = k <;> simp [dict_set, h, ih]

@[simp] theorem dict_set_lookup_ne (m : List (String × V)) (k k₀ : String) (v : V)
    (h : k₀ ≠ k) : dict_get (dict_set m k v) k₀ = dict_get m k₀ := by
  induction m with
  | nil => simp [dict_set, Ne.symm h]
  | cons p rest ih =>
    obtain ⟨k', v'⟩ := p
    by_cases hk : k' = k
    · subst hk
      simp [dict_set, Ne.symm h]
    · by_cases hk0 : k' = k₀ <;> simp [dict_set, hk, hk0, ih, h]

theorem dict_pop_lookup_eq (m : List (String × V)) (k : String)
    (hnd : (dict_keys m).Nodup) : dict_get (dict_pop m k) k = none := by
  induction m with
  | nil => rfl
  | cons p rest ih =>
    obtain ⟨k', v'⟩ := p
    simp only [dict_keys_cons, List.nodup_cons] at hnd
    by_cases h : k' = k
    · subst h
      simpa [dict_pop] using dict_get_eq_none_of_not_mem rest k' hnd.1
    · simp [dict_pop, h, ih hnd.2]

theorem dict_pop_lookup_ne (m : List (String × V)) (k k₀ : String) (h : k₀ ≠ k) :
    dict_get (dict_pop m k) k₀ = dict_get m k₀ := by
  induction m with
  | nil => rfl
  | cons p rest ih =>
    obtain ⟨k', v'⟩ := p
    by_cases hk : k' = k
    · subst hk
      simp [dict_pop, Ne.symm h]
    · by_cases hk0 : k' = k₀ <;> simp [dict_pop, hk, hk0, ih, h]

theorem dict_get_eq_none_iff (m : List (String × V)) (k : String) :
    dict_get m k = none ↔ k ∉ dict_keys m := by
  induction m with
  | nil => simp
  | cons p rest ih =>
    obtain ⟨k', v'⟩ := p
    by_cases h : k' = k
    · simp [h]
    · simp only [dict_keys_cons, List.mem_cons, not_or, dict_get_cons, if_neg h, ih]
      exact ⟨fun hn => ⟨fun he => h he.symm, hn⟩, fun hn => hn.2⟩

theorem dict_set_dict_set (m : List (String × V)) (k : String) (v₁ v₂ : V) :
    dict_set (dict_set m k v₁) k v₂ = dict_set m k v₂ := by
  induction m with
  | nil => simp [dict_set]
  | cons p rest ih =>
    obtain ⟨k', v'⟩ := p
    by_cases h : k' = k <;> simp [dict_set, h, ih]

theorem dict_pop_dict_set_of_not_mem (m : List (String × V)) (k : String) (v : V)
    (h : k ∉ dict_keys m) : dict_pop (dict_set m k v) k = m := by
  induction m with
  | nil => simp [dict_set, dict_pop]
  | cons p rest ih =>
    obtain ⟨k', v'⟩ := p
    simp only [dict_keys_cons, List.mem_cons, not_or] at h
    simp [dict_set, dict_pop, Ne.symm h.1, ih h.2]

/-- Claim C5, counterexample: invoking an unregistered tool id yields the
response `{"type": "invoke_response", "error": "Tool not found: <id>"}` with
NO `success` key at all, so the response is not `ToolResult`-shaped (the
`ToolResult` shape requires a `success` flag). -/
theorem C5_counterexample :
    (RegistryServer.handle_invoke ([] : List (String × RegistryServer.ToolEntry Nat))
        "missing_tool" []).error = some "Tool not found: missing_tool"
    ∧ (RegistryServer.handle_invoke ([] : List (String × RegistryServer.ToolEntry Nat))
        "missing_tool" []).success = none := by
  exact ⟨rfl, rfl⟩

/-- Claim C5 (amended): for every invoke request whose tool id is absent from
the registry, `handle_invoke` returns (never raises) the failure response
`{"type": "invoke_response", "error": "Tool not found: <id>"}`; the response
carries the error string but no `success`, `tool_id` or `result` key. -/
theorem C5_tool_not_found_response (tools : List (String × RegistryServer.ToolEntry V))
    (tid : String) (params : List (String × V)) (h : dict_get tools tid = none) :
    RegistryServer.handle_invoke tools tid params =
      ⟨"invoke_response", none, none, none, some ("Tool not found: " ++ tid)⟩ := by
  simp [RegistryServer.handle_invoke, h]

theorem C5_witness :
    RegistryServer.handle_invoke ([] : List (String × RegistryServer.ToolEntry Nat)) "x" [] =
      ⟨"invoke_response", none, none, none, some ("Tool not found: " ++ "x")⟩ :=
  C5_tool_not_found_response [] "x" [] rfl

/-- Claim C4, counterexample: a handler that raises `ValueError("bad arg")`
(any non-`TypeError` exception) is caught by the generic `except Exception`
branch, so the response error is `"bad arg"`, not `"Parameter error: bad arg"`
— only `TypeError` gets the `"Parameter error: "` prefix. -/
theorem C4_counterexample :
    (RegistryServer.handle_invoke
        [("t1", ⟨"t1", "", [], some (fun _ => .exc "bad arg"), "general"⟩)]
        "t1" ([] : List (String × Nat))).success = some false
    ∧ (RegistryServer.handle_invoke
        [("t1", ⟨"t1", "", [], some (fun _ => .exc "bad arg"), "general"⟩)]
        "t1" ([] : List (String × Nat))).error = some "bad arg"
    ∧ (RegistryServer.handle_invoke
        [("t1", ⟨"t1", "", [], some (fun _ => .exc "bad arg"), "general"⟩)]
        "t1" ([] : List (String × Nat))).error ≠ some "Parameter error: bad arg" := by
  refine ⟨rfl, rfl, ?_⟩
  decide

/-- Claim C4 (amended): every exception a registered handler raises during
`handle_invoke` is converted into a `success: false` failure response instead
of propagating; a `TypeError` (parameter-shape error) is reported with its
message prefixed `"Parameter error: "`, while every other exception —
including `ValueError("bad arg")` — is reported with the bare exception
message, so `ValueError("bad arg")` yields
`{success: false, error: "bad arg"}`. -/
theorem C4_handler_exception_isolation (tools : List (String × RegistryServer.ToolEntry V))
    (tid : String) (params : List (String × V)) (tool : RegistryServer.ToolEntry V)
    (h : List (String × V) → RegistryServer.HandlerOutcome V) (m : String)
    (hlk : dict_get tools tid = some tool) (hh : tool.handler = some h) :
    (h (RegistryServer.remap_input_to_symbol tool.parameters params) = .exc m →
       RegistryServer.handle_invoke tools tid params =
         ⟨"invoke_response", some tid, none, some false, some m⟩)
    ∧ (h (RegistryServer.remap_input_to_symbol tool.parameters params) = .typeError m →
       RegistryServer.handle_invoke tools tid params =
         ⟨"invoke_response", some tid, none, some false, some ("Parameter error: " ++ m)⟩) := by
  constructor <;> intro he <;>
    simp [RegistryServer.handle_invoke, hlk, hh, he, RegistryServer.invoke_response_of]

theorem C4_witness :
    RegistryServer.handle_invoke
        [("t1", ⟨"t1", "", [], some (fun _ => .exc "boom"), "general"⟩)]
        "t1" ([] : List (String × Nat)) =
      ⟨"invoke_response", some "t1", none, some false, some "boom"⟩ :=
  (C4_handler_exception_isolation
      [("t1", ⟨"t1", "", [], some (fun _ => .exc "boom"), "general"⟩)]
      "t1" [] ⟨"t1", "", [], some (fun _ => .exc "boom"), "general"⟩
      (fun _ => .exc "boom") "boom" rfl rfl).1 rfl

/-- Claim C10 (confirmed): when the request parameters contain `"input"` and
the tool's declared parameter schema contains `"symbol"`, `handle_invoke`
drops the `"input"` entry and passes its value to the handler under
`"symbol"`, leaving every other key untouched; when either condition fails
the parameters reach the handler unchanged; and the handler is always
applied to exactly `remap_input_to_symbol tool.parameters params`. -/
theorem C10_input_symbol_remap (toolParams params : List (String × V))
    (hnd : (dict_keys params).Nodup) :
    (∀ v, dict_get params "input" = some v → (dict_get toolParams "symbol").isSome = true →
       dict_get (RegistryServer.remap_input_to_symbol toolParams params) "symbol" = some v
       ∧ dict_get (RegistryServer.remap_input_to_symbol toolParams params) "input" = none
       ∧ ∀ k, k ≠ "input" → k ≠ "symbol" →
           dict_get (RegistryServer.remap_input_to_symbol toolParams params) k =
             dict_get params k)
    ∧ (dict_get params "input" = none →
        RegistryServer.remap_input_to_symbol toolParams params = params)
    ∧ ((dict_get toolParams "symbol").isSome = false →
        RegistryServer.remap_input_to_symbol toolParams params = params)
    ∧ (∀ (tools : List (String × RegistryServer.ToolEntry V)) (tid : String)
         (tool : RegistryServer.ToolEntry V)
         (h : List (String × V) → RegistryServer.HandlerOutcome V),
         dict_get tools tid = some tool → tool.handler = some h →
         RegistryServer.handle_invoke tools tid params =
           RegistryServer.invoke_response_of tid
             (h (RegistryServer.remap_input_to_symbol tool.parameters params))) := by
  refine ⟨?_, ?_, ?_, ?_⟩
  · intro v hin hsym
    have hne : ("input" : String) ≠ "symbol" := by decide
    refine ⟨?_, ?_, ?_⟩
    · simp [RegistryServer.remap_input_to_symbol, hin, hsym]
    · simp only [RegistryServer.remap_input_to_symbol, hin, hsym, if_pos]
      rw [dict_set_lookup_ne _ _ _ _ hne]
      exact dict_pop_lookup_eq params "input" hnd
    · intro k hk1 hk2
      simp only [RegistryServer.remap_input_to_symbol, hin, hsym, if_pos]
      rw [dict_set_lookup_ne _ _ _ _ hk2]
      exact dict_pop_lookup_ne params "input" k hk1
  · intro hin
    simp [RegistryServer.remap_input_to_symbol, hin]
  · intro hsym
    cases hin : dict_get params "input" <;>
      simp [RegistryServer.remap_input_to_symbol, hin, hsym]
  · intro tools tid tool h hlk hh
    simp [RegistryServer.handle_invoke, hlk, hh]

theorem C10_witness :
    dict_get (RegistryServer.remap_input_to_symbol [("symbol", 0)] [("input", 7)]) "symbol" =
      some 7 :=
  ((C10_input_symbol_remap [("symbol", 0)] [("input", 7)] (by decide)).1 7 rfl rfl).1

/-- Claim C1, counterexample: a duplicate `tool_response` for id `r1` that is
processed while the matched (already-resolved) slot is still registered — i.e.
before the awaiting coroutine's `finally` has popped it — is NOT a no-op:
`Future.set_result` on the resolved future raises `InvalidStateError`, the
`except` at line 128 catches it and sets `connected = False`, ending the
message-handler loop.  So connection state is not left unchanged. -/
theorem C1_counterexample :
    ProtocolClient.handle_messages_step "r1"
        (ProtocolClient.handle_messages_step "r1" ⟨[("r1", .pending)], true⟩) ≠
      ProtocolClient.handle_messages_step "r1" ⟨[("r1", .pending)], true⟩
    ∧ (ProtocolClient.handle_messages_step "r1"
        (ProtocolClient.handle_messages_step "r1" ⟨[("r1", .pending)], true⟩)).connected =
      false := by
  decide

/-- Claim C1 (amended): at most one response is ever delivered to the pending
slot for a correlation id: the first matching response resolves exactly that
slot (every other slot and the connected flag are untouched), and the slot is
removed once `_send_and_wait` finishes; a duplicate response processed after
the slot's removal is a no-op.  (A duplicate processed while the resolved slot
is still registered instead kills the handler loop — see the
counterexample.) -/
theorem C1_at_most_once_delivery (s : ProtocolClient.ClientState) (rid : String) :
    (dict_get s.response_handlers rid = none →
       ProtocolClient.handle_messages_step rid s = s)
    ∧ (dict_get s.response_handlers rid = some .pending →
       (ProtocolClient.handle_messages_step rid s).connected = s.connected
       ∧ dict_get (ProtocolClient.handle_messages_step rid s).response_handlers rid =
           some .done
       ∧ ∀ r', r' ≠ rid →
           dict_get (ProtocolClient.handle_messages_step rid s).response_handlers r' =
             dict_get s.response_handlers r')
    ∧ (∀ t : Nat, s.connected = true → dict_get s.response_handlers rid = none →
       t < ProtocolClient.wait_for_timeout →
       dict_get (ProtocolClient.send_and_wait s rid (some t)).final.response_handlers rid =
         none) := by
  refine ⟨?_, ?_, ?_⟩
  · intro h
    simp [ProtocolClient.handle_messages_step, h]
  · intro h
    refine ⟨?_, ?_, ?_⟩
    · simp [ProtocolClient.handle_messages_step, h, ProtocolClient.set_slot]
    · simp [ProtocolClient.handle_messages_step, h, ProtocolClient.set_slot]
    · intro r' hr'
      simp only [ProtocolClient.handle_messages_step, h, ProtocolClient.set_slot]
      exact dict_set_lookup_ne _ _ _ _ hr'
  · intro t hconn habs ht
    have hmem : rid ∉ dict_keys s.response_handlers := (dict_get_eq_none_iff _ _).mp habs
    simp only [ProtocolClient.send_and_wait, hconn, ProtocolClient.set_slot, if_pos ht]
    simp only [ProtocolClient.handle_messages_step, dict_set_lookup_self,
      ProtocolClient.set_slot]
    simp only [dict_set_dict_set]
    rw [dict_pop_dict_set_of_not_mem _ _ _ hmem]
    exact habs

theorem C1_witness :
    dict_get (ProtocolClient.handle_messages_step "r1"
        ⟨[("r1", .pending)], true⟩).response_handlers "r1" = some .done :=
  ((C1_at_most_once_delivery ⟨[("r1", .pending)], true⟩ "r1").2.1 rfl).2.1

/-- Claim C2 (confirmed): an invocation whose server never responds raises
`Exception("Timeout waiting for response to <id>")` after exactly the
configured 30 s `wait_for` timeout (never waits indefinitely); the `finally`
removes the pending slot, so the final state carries no slot for the id; and a
response for that id arriving after the timeout is a no-op of
`_handle_messages` (silently discarded, no error, no state change). -/
theorem C2_timeout_releases_slot (s : ProtocolClient.ClientState) (mid : String)
    (h1 : s.connected = true) (h2 : dict_get s.response_handlers mid = none) :
    (ProtocolClient.send_and_wait s mid none).raised =
      some ("Timeout waiting for response to " ++ mid)
    ∧ (ProtocolClient.send_and_wait s mid none).waited = ProtocolClient.wait_for_timeout
    ∧ dict_get (ProtocolClient.send_and_wait s mid none).final.response_handlers mid = none
    ∧ ProtocolClient.handle_messages_step mid (ProtocolClient.send_and_wait s mid none).final =
        (ProtocolClient.send_and_wait s mid none).final := by
  have hmem : mid ∉ dict_keys s.response_handlers := (dict_get_eq_none_iff _ _).mp h2
  have hfinal : (ProtocolClient.send_and_wait s mid none).final.response_handlers =
      s.response_handlers := by
    simp only [ProtocolClient.send_and_wait, h1, ProtocolClient.set_slot]
    simp only [Bool.true_eq_false, if_false]
    exact dict_pop_dict_set_of_not_mem _ _ _ hmem
  refine ⟨?_, ?_, ?_, ?_⟩
  · simp [ProtocolClient.send_and_wait, h1]
  · simp [ProtocolClient.send_and_wait, h1]
  · rw [hfinal]
    exact h2
  · simp only [ProtocolClient.handle_messages_step, hfinal, h2]

theorem C2_witness :
    (ProtocolClient.send_and_wait ⟨[], true⟩ "m1" none).raised =
      some ("Timeout waiting for response to " ++ "m1")
    ∧ (ProtocolClient.send_and_wait ⟨[], true⟩ "m1" none).waited =
        ProtocolClient.wait_for_timeout
    ∧ dict_get (ProtocolClient.send_and_wait ⟨[], true⟩ "m1" none).final.response_handlers
        "m1" = none
    ∧ ProtocolClient.handle_messages_step "m1"
        (ProtocolClient.send_and_wait ⟨[], true⟩ "m1" none).final =
        (ProtocolClient.send_and_wait ⟨[], true⟩ "m1" none).final :=
  C2_timeout_releases_slot ⟨[], true⟩ "m1" rfl rfl

/-- Claim C3, counterexample: an attempt whose response carries a failure
status raises `ValueError("Tool invocation failed: ...")`, and tenacity's
default predicate retries on ANY exception, so the failed first attempt is
retried: with an application-level failure on attempt 1 and a success on
attempt 2, the wrapped call makes 2 attempts (sleeping 2 s in between) and
returns the success — the failure is neither surfaced on the first attempt nor
exempt from retry. -/
theorem C3_counterexample :
    (RegistryClient.invoke_tool_retry
        (fun n => if n = 1 then .appFailure "upstream error" else
          .success (42 : Nat))).attempts_used = 2
    ∧ (RegistryClient.invoke_tool_retry
        (fun n => if n = 1 then .appFailure "upstream error" else
          .success (42 : Nat))).result = .ok 42
    ∧ (RegistryClient.invoke_tool_retry
        (fun n => if n = 1 then .appFailure "upstream error" else
          .success (42 : Nat))).waits = [2] := by
  exact ⟨rfl, rfl, rfl⟩

/-- Claim C3 (amended): `invoke_tool` is retried at most 3 times
(`stop_after_attempt(3)`), every sleep between attempts is clamped into
[1 s, 10 s] (`wait_exponential(multiplier=1, min=1, max=10)`), a first-attempt
success returns immediately with no retry, and — because the decorator has no
`retry=` predicate — ANY raised exception triggers a retry, including the
`ValueError` raised for an application-level `status != "success"` result;
such failures are therefore not surfaced on the first attempt. -/
theorem C3_retry_on_any_exception (outcomes : Nat → RegistryClient.AttemptOutcome V) :
    (RegistryClient.invoke_tool_retry outcomes).attempts_used ≤
      RegistryClient.stop_after_attempt
    ∧ (∀ w ∈ (RegistryClient.invoke_tool_retry outcomes).waits, 1 ≤ w ∧ w ≤ 10)
    ∧ (∀ v, outcomes 1 = .success v →
        RegistryClient.invoke_tool_retry outcomes = ⟨.ok v, 1, []⟩)
    ∧ (RegistryClient.tenacity_should_retry (outcomes 1) = true →
        2 ≤ (RegistryClient.invoke_tool_retry outcomes).attempts_used) := by
  cases h1 : outcomes 1 <;> cases h2 : outcomes 2 <;> cases h3 : outcomes 3 <;>
    simp_all [RegistryClient.invoke_tool_retry, RegistryClient.retry_loop,
      RegistryClient.stop_after_attempt, RegistryClient.wait_exponential_value,
      RegistryClient.tenacity_should_retry, RegistryClient.raised_exception]

theorem C3_witness :
    RegistryClient.invoke_tool_retry (fun _ => .success (7 : Nat)) = ⟨.ok 7, 1, []⟩ :=
  (C3_retry_on_any_exception (fun _ => .success (7 : Nat))).2.2.1 7 rfl

/-- Auxiliary characterisation of the `connect` loop for any starting
accumulator. -/
theorem connect_foldl_characterisation (urls : List String) (ok : String → Bool)
    (b : Bool) (acc : List String) :
    urls.foldl
        (fun acc url =>
          if RegistryClient.valid_scheme url then (acc.1 || ok url, acc.2 ++ [url]) else acc)
        (b, acc) =
      (b || urls.any (fun u => RegistryClient.valid_scheme u && ok u),
        acc ++ urls.filter RegistryClient.valid_scheme) := by
  induction urls generalizing b acc with
  | nil => simp
  | cons u rest ih =>
    by_cases h : RegistryClient.valid_scheme u = true
    · simp [h, ih, Bool.or_assoc]
    · simp [h, ih, Bool.eq_false_iff.mpr h]

/-- Claim C6 (confirmed): `connect` succeeds if and only if some configured
URL both has a recognized duplex-socket scheme (`ws`/`wss`) and connects
successfully; and the set of URLs for which a network call is attempted is
exactly the valid-scheme URLs in order — an invalid-scheme URL is rejected
before any network call, and a per-URL failure does not stop later URLs from
being attempted. -/
theorem C6_connect_any_success (urls : List String) (ok : String → Bool) :
    ((RegistryClient.connect urls ok).1 = true ↔
      ∃ u ∈ urls, RegistryClient.valid_scheme u = true ∧ ok u = true)
    ∧ (RegistryClient.connect urls ok).2 = urls.filter RegistryClient.valid_scheme := by
  unfold RegistryClient.connect
  rw [connect_foldl_characterisation]
  constructor
  · simp [List.any_eq_true]
  · simp

/-- Claim C7 (confirmed): after N consecutive connection failures (N below the
5-attempt budget, so that attempt N+1 exists) the `_reconnect` loop sleeps
exactly `2^(N-1)` seconds before attempt N+1, which is at least
`min(2^(N-1), cap)` for every cap — the implementation applies no explicit
cap below its 5-attempt bound (the largest sleep ever used is `2^4 = 16` s). -/
theorem C7_reconnect_backoff (N cap failCount : Nat) (h1 : 1 ≤ N)
    (h2 : N < RegistryClient.reconnect_max_attempts) (h3 : N ≤ failCount) :
    (RegistryClient.reconnect_sleeps failCount).getD (N - 1) 0 = 2 ^ (N - 1)
    ∧ min (2 ^ (N - 1)) cap ≤ (RegistryClient.reconnect_sleeps failCount).getD (N - 1) 0 := by
  have hlt : N - 1 < min failCount RegistryClient.reconnect_max_attempts := by
    simp only [RegistryClient.reconnect_max_attempts] at h2 ⊢
    omega
  have hget : (RegistryClient.reconnect_sleeps failCount).getD (N - 1) 0 = 2 ^ (N - 1) := by
    unfold RegistryClient.reconnect_sleeps
    rw [List.getD_eq_getElem _ _ (by simpa using hlt)]
    simp [RegistryClient.reconnect_sleep]
  exact ⟨hget, hget ▸ min_le_left _ _⟩

theorem C7_witness :
    (RegistryClient.reconnect_sleeps 5).getD 1 0 = 2 ^ 1
    ∧ min (2 ^ 1) 100 ≤ (RegistryClient.reconnect_sleeps 5).getD 1 0 :=
  C7_reconnect_backoff 2 100 5 (by decide) (by decide) (by decide)

/-- Folding the `properties` comprehension over parameters none of which is
named `n` leaves the entry for `n` unchanged. -/
theorem properties_foldl_lookup_not_mem (ps : List (ProtocolTypes.ToolParameter V))
    (d : List (String × ProtocolTypes.PropertyEntry V)) (n : String)
    (h : n ∉ ps.map (fun p => p.name)) :
    dict_get
        (ps.foldl (fun d p => dict_set d p.name ⟨p.type, p.description, p.default⟩) d) n =
      dict_get d n := by
  induction ps generalizing d with
  | nil => rfl
  | cons q rest ih =>
    simp only [List.map_cons, List.mem_cons, not_or] at h
    simp only [List.foldl_cons]
    rw [ih _ h.2]
    exact dict_set_lookup_ne _ _ _ _ h.1

/-- With pairwise-distinct parameter names, the `properties` comprehension
stores each parameter's entry under its name. -/
theorem properties_foldl_lookup_mem (ps : List (ProtocolTypes.ToolParameter V))
    (d : List (String × ProtocolTypes.PropertyEntry V))
    (p : ProtocolTypes.ToolParameter V) (hp : p ∈ ps)
    (hnd : (ps.map (fun p => p.name)).Nodup) :
    dict_get
        (ps.foldl (fun d p => dict_set d p.name ⟨p.type, p.description, p.default⟩) d)
        p.name =
      some ⟨p.type, p.description, p.default⟩ := by
  induction ps generalizing d with
  | nil => cases hp
  | cons q rest ih =>
    simp only [List.map_cons, List.nodup_cons] at hnd
    rcases List.mem_cons.mp hp with hq | hrest
    · subst hq
      simp only [List.foldl_cons]
      rw [properties_foldl_lookup_not_mem rest _ _ hnd.1]
      exact dict_set_lookup_self _ _ _
    · simp only [List.foldl_cons]
      exact ih _ hrest hnd.2

/-- Claim C8, counterexample: a `Tool` with two parameters that share the name
`"a"` (a required `string` one and an optional `number` one) does not survive
the flattening: the `properties` dict comprehension collapses both under key
`"a"` with the later (`number`) type, so the first parameter's type tag
(`string`) cannot be read back. -/
theorem C8_counterexample :
    let t : ProtocolTypes.Tool Unit :=
      ⟨"t", "t", "",
        [⟨"a", .string, "", true, none, none⟩, ⟨"a", .number, "", false, none, none⟩],
        none⟩
    ¬ (∀ p ∈ t.parameters,
        ProtocolTypes.schema_type_of (ProtocolTypes.to_langchain_tool t) p.name =
          some p.type) := by
  intro t
  decide

/-- Claim C8 (amended): for every `Tool` whose parameter names are pairwise
distinct, the flattened parameter schema produced by `to_langchain_tool`
preserves the per-parameter type tag (the `"type"` stored under each
parameter's name is that parameter's type) and represents exactly the set of
required parameter names in its `required` list. -/
theorem C8_langchain_roundtrip (t : ProtocolTypes.Tool V)
    (hnd : (t.parameters.map (fun p => p.name)).Nodup) :
    (∀ p ∈ t.parameters,
       ProtocolTypes.schema_type_of (ProtocolTypes.to_langchain_tool t) p.name = some p.type)
    ∧ (∀ n, n ∈ (ProtocolTypes.to_langchain_tool t).required ↔
        ∃ p ∈ t.parameters, p.required = true ∧ p.name = n) := by
  constructor
  · intro p hp
    unfold ProtocolTypes.schema_type_of ProtocolTypes.to_langchain_tool
    rw [properties_foldl_lookup_mem t.parameters [] p hp hnd]
    rfl
  · intro n
    simp only [ProtocolTypes.to_langchain_tool, List.mem_map, List.mem_filter]
    constructor
    · rintro ⟨p, ⟨hmem, hreq⟩, hname⟩
      exact ⟨p, hmem, hreq, hname⟩
    · rintro ⟨p, hmem, hreq, hname⟩
      exact ⟨p, ⟨hmem, hreq⟩, hname⟩

theorem C8_witness :
    ProtocolTypes.schema_type_of
        (ProtocolTypes.to_langchain_tool
          (⟨"t", "t", "", [⟨"a", .string, "", true, none, none⟩], none⟩ :
            ProtocolTypes.Tool Unit))
        "a" = some .string :=
  (C8_langchain_roundtrip
      (⟨"t", "t", "", [⟨"a", .string, "", true, none, none⟩], none⟩ :
        ProtocolTypes.Tool Unit)
      (by decide)).1 ⟨"a", .string, "", true, none, none⟩ (by decide)

/-- Claim C9: the `tool_list_response` dict hand-built by
`MCPServer.process_message` (`backend/mcp/protocol/server.py` lines 64-68)
carries exactly the keys `id`, `type`, `tools` and in particular NO
`timestamp` key, and the `subscribe_response` sent by the registry server
(`backend/mcp/server.py` lines 189-196 plus the `id` added at line 66) also
carries no `timestamp` key — although the repository's own wire models
(`MCPMessage`/`ToolListResponse` in `backend/mcp/protocol/types.py`) declare
`timestamp` as a required field of every message. -/
theorem C9_missing_timestamp (mid : String)
    (tools : List (String × ProtocolTypes.Tool V)) (event_type mid' : Option String) :
    dict_keys (ProtocolServer.tool_list_response mid tools) = ["id", "type", "tools"]
    ∧ "timestamp" ∉ dict_keys (ProtocolServer.tool_list_response mid tools)
    ∧ "timestamp" ∉ dict_keys (ProtocolServer.subscribe_response (V := V) event_type mid') := by
  refine ⟨rfl, ?_, ?_⟩
  · simp [ProtocolServer.tool_list_response, dict_keys]
  · simp [ProtocolServer.subscribe_response, dict_keys]

end MCP
